import Mathlib

/-!
Shallow embedding of the `rast-rs` software rasterizer
(`src/graphics/{image,framebuffer,scissor,shader,rasterizer}.rs`).

Modelling conventions:
* `f32` values are modelled as `ℚ` with exact arithmetic; division by zero
  yields `0` (the claims settled here never depend on the `inf`/`NaN`
  behaviour of an actual float division by zero).
* `u32`/`u16`/`usize` values are modelled as `Nat`; where the code relies
  on wrapping or saturating casts this is made explicit.
* Rust arrays `[T; 3]` / `[T; 4]` are modelled as functions `Fin 3 → T` /
  `Fin 4 → T`; slice iteration (`iter().all`) is modelled over
  `List.finRange`.
* A Rust `panic!` is modelled as a distinguished `panicked` outcome; an
  early-returned `Err(...)` is modelled as `Except.error`.
-/

namespace Rast

/-- 2D point/vector over the rational model of `f32` (`nalgebra::Point2`,
`Vector2`). -/
structure Vec2 where
  x : ℚ
  y : ℚ
deriving DecidableEq

/-- 3D point over the rational model of `f32` (`nalgebra::Point3`). -/
structure Point3 where
  x : ℚ
  y : ℚ
  z : ℚ
deriving DecidableEq

/-- `enum RasterizerError` from `rasterizer.rs`: it has exactly the two
variants below; there is no `InvalidScanlineRange` variant anywhere in the
crate. -/
inductive RasterizerError where
  | NoRenderTarget
  | RenderTargetUnfinished
deriving DecidableEq

/-- `enum BlendFactor`. -/
inductive BlendFactor where
  | Zero
  | One
  | SrcAlpha
  | OneMinusSrcAlpha
  | DstAlpha
  | OneMinusDstAlpha
deriving DecidableEq

/-- `enum BlendOp`. -/
inductive BlendOp where
  | Add
  | SrcSubDst
  | DstSubSrc
deriving DecidableEq

/-- `struct ComponentBlendOp`. -/
structure ComponentBlendOp where
  op : BlendOp
  src_factor : BlendFactor
  dst_factor : BlendFactor
deriving DecidableEq

/-- `struct BlendAttachment`. -/
structure BlendAttachment where
  color : Option ComponentBlendOp
  alpha : Option ComponentBlendOp
deriving DecidableEq

/-- Rust's saturating `f32 → u8` `as` cast followed by no further masking:
values `< 0` give `0`, values `≥ 255` give `255`, otherwise truncation
toward zero (for non-negative input this is the floor). -/
def f32_as_u8 (q : ℚ) : Nat :=
  if q ≤ 0 then 0
  else if 255 ≤ q then 255
  else (Int.floor q).toNat

/-- `color_to_channels`: `color.to_be_bytes().map(|c| c as f32 / 256.0)`.
Byte `i` of the big-endian representation of a `u32` is
`color / 2^(8*(3-i)) % 256`. -/
def color_to_channels (color : Nat) : Fin 4 → ℚ :=
  fun i => (((color / 2 ^ (8 * (3 - (i : Nat)))) % 256 : Nat) : ℚ) / 256

/-- `channels_to_color`: `u32::from_be_bytes(channels.map(|c| (c * 256.0) as u8))`. -/
def channels_to_color (channels : Fin 4 → ℚ) : Nat :=
  f32_as_u8 (channels 0 * 256) * 2 ^ 24 +
  f32_as_u8 (channels 1 * 256) * 2 ^ 16 +
  f32_as_u8 (channels 2 * 256) * 2 ^ 8 +
  f32_as_u8 (channels 3 * 256)

/-- `struct BlendContext`. -/
structure BlendContext where
  src_alpha : ℚ
  dst_alpha : ℚ

/-- `ComponentBlendOp::channel_term`. -/
def ComponentBlendOp.channel_term (value : ℚ) (factor : BlendFactor)
    (context : BlendContext) : ℚ :=
  let coeff :=
    match factor with
    | BlendFactor.Zero => 0
    | BlendFactor.One => 1
    | BlendFactor.SrcAlpha => context.src_alpha
    | BlendFactor.OneMinusSrcAlpha => 1 - context.src_alpha
    | BlendFactor.DstAlpha => context.dst_alpha
    | BlendFactor.OneMinusDstAlpha => 1 - context.dst_alpha
  coeff * value

/-- `ComponentBlendOp::blend`. -/
def ComponentBlendOp.blend (self : ComponentBlendOp) (src dst : ℚ)
    (context : BlendContext) : ℚ :=
  let src_term := ComponentBlendOp.channel_term src self.src_factor context
  let dst_term := ComponentBlendOp.channel_term dst self.dst_factor context
  match self.op with
  | BlendOp.Add => src_term + dst_term
  | BlendOp.SrcSubDst => src_term - dst_term
  | BlendOp.DstSubSrc => dst_term - src_term

/-- The per-channel body of `BlendAttachment::blend_colors` (the closure
passed to `array::from_fn`): channel `3` uses the alpha op, the others the
color op; an absent op passes the source channel through. -/
def BlendAttachment.blend_channel (self : BlendAttachment) (src dst : Nat)
    (i : Fin 4) : ℚ :=
  let src_channels := color_to_channels src
  let dst_channels := color_to_channels dst
  let context : BlendContext :=
    { src_alpha := src_channels 3, dst_alpha := dst_channels 3 }
  let component_op := if i = 3 then self.alpha else self.color
  match component_op with
  | some op => op.blend (src_channels i) (dst_channels i) context
  | none => src_channels i

/-- `BlendAttachment::blend_colors`. -/
def BlendAttachment.blend_colors (self : BlendAttachment) (src dst : Nat) : Nat :=
  channels_to_color (self.blend_channel src dst)

/-- `enum DepthMode`. -/
inductive DepthMode where
  | DontCare
  | Test
  | Write
deriving DecidableEq

/-- `DepthMode::should_test`. -/
def DepthMode.should_test (self : DepthMode) : Bool :=
  match self with
  | DepthMode.DontCare => false
  | _ => true

/-- `DepthMode::should_write`. -/
def DepthMode.should_write (self : DepthMode) : Bool :=
  match self with
  | DepthMode.Write => true
  | _ => false

/-- `enum WindingOrder`. -/
inductive WindingOrder where
  | Clockwise
  | CounterClockwise
deriving DecidableEq

/-- `struct Scissor` (`scissor.rs`). -/
structure Scissor where
  x : Nat
  y : Nat
  width : Nat
  height : Nat
deriving DecidableEq

/-- `Scissor::contains`. -/
def Scissor.contains (self : Scissor) (x y : Nat) : Bool :=
  let x1 := self.x + self.width
  let y1 := self.y + self.height
  decide (x ≥ self.x) && decide (x < x1) && decide (y ≥ self.y) && decide (y < y1)

/-- `Scissor::intersect_with`. -/
def Scissor.intersect_with (self other : Scissor) : Option Scissor :=
  let x0 := max self.x other.x
  let y0 := max self.y other.y
  let x1 := min (self.x + self.width) (other.x + other.width)
  let y1 := min (self.y + self.height) (other.y + other.height)
  if x1 ≤ x0 ∨ y1 ≤ y0 then none
  else some { x := x0, y := y0, width := x1 - x0, height := y1 - y0 }

/-- `struct Framebuffer` (`framebuffer.rs`).  Each color attachment is an
`Image<u32>`; its row-major backing vector (`Image::data`, of length
`width * height`) is modelled directly as a `List Nat`.  The optional depth
attachment is an `Image<f32>` modelled as a `List ℚ`. -/
structure Framebuffer where
  width : Nat
  height : Nat
  color : List (List Nat)
  depth : Option (List ℚ)
deriving DecidableEq

/-- `struct MutableScanline`: one row index plus the row slices of every
color attachment and (optionally) of the depth attachment. -/
structure MutableScanline where
  y : Nat
  color : List (List Nat)
  depth : Option (List ℚ)
deriving DecidableEq

instance : Inhabited MutableScanline := ⟨⟨0, [], none⟩⟩

/-- Outcome of an operation that can `panic!` (and otherwise returns
normally; there is no error-return path in `Framebuffer::scanlines`). -/
inductive PanicOr (α : Type) where
  | ok (value : α)
  | panicked (msg : String)
deriving DecidableEq

/-- Row `y` of a row-major attachment of width `W`: the slice
`data[y*W .. y*W + W]`. -/
def attachment_row (data : List α) (W y : Nat) : List α :=
  (data.drop (y * W)).take W

/-- `Framebuffer::scanlines`.  The Rust function `panic!`s with
"Invalid scanline range!" when `offset >= height || offset + count > height`;
otherwise it splits rows `offset, offset+1, …, offset+count-1` off the
attachments' backing vectors (via advancing `split_at_mut` cursors over
`data[offset*W .. (offset+count)*W]`, which yields exactly the per-row
slices modelled by `attachment_row`). -/
def Framebuffer.scanlines (self : Framebuffer) (offset count : Nat) :
    PanicOr (List MutableScanline) :=
  if offset ≥ self.height ∨ offset + count > self.height then
    PanicOr.panicked "Invalid scanline range!"
  else
    PanicOr.ok ((List.range count).map (fun delta_y =>
      { y := offset + delta_y,
        color := self.color.map (fun att => attachment_row att self.width (offset + delta_y)),
        depth := self.depth.map (fun att => attachment_row att self.width (offset + delta_y)) }))

/-- `struct VertexContext` (`shader.rs`).  `vertex_id` comes from a `u16`
index buffer entry cast `as usize`. -/
structure VertexContext (U : Type) where
  vertex_id : Nat
  instance_id : Nat
  data : U

/-- `struct FragmentContext` (`shader.rs`). -/
structure FragmentContext (U W : Type) where
  instance_id : Nat
  position : Point3
  data : U
  working : W

/-- `struct VertexOutput` (`shader.rs`). -/
structure VertexOutput (W : Type) where
  position : Point3
  data : W

/-- The `Shader` capability set (`shader.rs`), with the interpolant
combiner of the `Working` type attached as a field.
`blendWorking` is modelled from the spec: the trait `Blendable` with
`blend(data: &[&W], weights: &[f32]) -> W` lives in `src/graphics/blending.rs`,
which is not present in the source tree (`rasterizer.rs` imports it and calls
`T::Working::blend(&[&w0, &w1, &w2], &weights)`); it is user-supplied code in
any case, so it is carried here as an opaque-to-the-rasterizer function. -/
structure Shader (U W : Type) where
  vertexStage : VertexContext U → VertexOutput W
  fragmentStage : FragmentContext U W → Nat
  blendWorking : List W → List ℚ → W

/-- `struct Pipeline` (`rasterizer.rs`). -/
structure Pipeline (U W : Type) where
  depth : DepthMode
  cull_back : Bool
  winding_order : WindingOrder
  blending : Option (List BlendAttachment)
  shader : Shader U W

/-- `struct IndexedRenderCall` (`rasterizer.rs`).  `indices` is the `u16`
index buffer (entries `< 2^16`; the bound is irrelevant to the claims). -/
structure IndexedRenderCall (U W : Type) where
  pipeline : Pipeline U W
  vertex_offset : Nat
  first_instance : Nat
  instance_count : Nat
  scissor : Option Scissor
  indices : List Nat
  data : U

/-- `f32::clamp(0.0, 1.0)`. -/
def clamp01 (q : ℚ) : ℚ := max 0 (min q 1)

/-- The running `(x0, y0, x1, y1)` bounds of the `gen_scissor` loop. -/
structure ScissorBounds where
  x0 : Nat
  y0 : Nat
  x1 : Nat
  y1 : Nat
deriving DecidableEq

/-- One iteration of the `gen_scissor` loop body: clamp the UV coordinate
to `[0,1]`, scale by the framebuffer size, accumulate floor into the min
corner and ceil into the max corner (`as usize` on these non-negative
values is `Int.toNat ∘ floor`/`ceil`). -/
def scissor_point_step (max_width max_height : Nat) (b : ScissorBounds)
    (point : Vec2) : ScissorBounds :=
  let x : ℚ := clamp01 point.x * (max_width : ℚ)
  let y : ℚ := clamp01 point.y * (max_height : ℚ)
  { x0 := min (Int.floor x).toNat b.x0,
    y0 := min (Int.floor y).toNat b.y0,
    x1 := max (Int.ceil x).toNat b.x1,
    y1 := max (Int.ceil y).toNat b.y1 }

/-- The bounds produced by the `gen_scissor` loop, starting from
`x0 = max_width, y0 = max_height, x1 = 0, y1 = 0`. -/
def gen_scissor_bounds (uv : List Vec2) (max_width max_height : Nat) :
    ScissorBounds :=
  uv.foldl (scissor_point_step max_width max_height)
    { x0 := max_width, y0 := max_height, x1 := 0, y1 := 0 }

/-- `gen_scissor` (`rasterizer.rs`).  The `usize` subtractions are modelled
by truncated `Nat` subtraction (which agrees with the Rust value whenever
`x0 ≤ x1` and `y0 ≤ y1`, proved below for non-empty input). -/
def gen_scissor (uv : List Vec2) (max_width max_height : Nat) : Scissor :=
  let b := gen_scissor_bounds uv max_width max_height
  { x := b.x0, y := b.y0, width := b.x1 - b.x0, height := b.y1 - b.y0 }

/-- `rotate_cw`. -/
def rotate_cw (v : Vec2) : Vec2 := ⟨-v.y, v.x⟩

/-- `rotate_ccw`. -/
def rotate_ccw (v : Vec2) : Vec2 := ⟨v.y, -v.x⟩

/-- `Vector2::dot`. -/
def Vec2.dot (a b : Vec2) : ℚ := a.x * b.x + a.y * b.y

/-- Vector difference of two points (`b - a`). -/
def Vec2.sub (b a : Vec2) : Vec2 := ⟨b.x - a.x, b.y - a.y⟩

/-- `signed_triangle_area` on the point array `[a, b, c]`. -/
def signed_triangle_area (a b c : Vec2) (winding : WindingOrder) : ℚ :=
  let ab := Vec2.sub b a
  let ac := Vec2.sub c a
  let normal :=
    match winding with
    | WindingOrder.CounterClockwise => rotate_ccw ab
    | WindingOrder.Clockwise => rotate_cw ab
  ac.dot normal / 2

/-- `VERTICES_PER_FACE`. -/
def VERTICES_PER_FACE : Nat := 3

/-- `struct FragmentInfo`. -/
structure FragmentInfo where
  depth : ℚ
  weights : Fin 3 → ℚ

/-- The `areas` array of `process_fragment_geometry`: entry `i` is the
signed area of the triangle formed by the screen-space positions of
vertices `(i+1) % 3`, `(i+2) % 3` and the query point (`Fin 3` addition is
addition mod 3). -/
def areasOf (triangle : Fin 3 → Point3) (point : Vec2)
    (winding : WindingOrder) : Fin 3 → ℚ :=
  let screen_points : Fin 3 → Vec2 := fun i => ⟨(triangle i).x, (triangle i).y⟩
  fun i => signed_triangle_area (screen_points (i + 1)) (screen_points (i + 2))
    point winding

/-- The `should_keep` boolean of `process_fragment_geometry`:
`areas_valid.all(id) || (!cull_back && areas_valid.all(not))`, which is the
`should_keep |=` formulation of the source written as a single expression. -/
def fragment_should_keep (areas : Fin 3 → ℚ) (cull_back : Bool) : Bool :=
  let areas_valid : Fin 3 → Bool := fun i => decide (areas i ≥ 0)
  ((List.finRange 3).all fun i => areas_valid i) ||
    (!cull_back && ((List.finRange 3).all fun i => !areas_valid i))

/-- `process_fragment_geometry`. -/
def process_fragment_geometry {U W : Type} (triangle : Fin 3 → Point3)
    (point : Vec2) (pipeline : Pipeline U W) : Option FragmentInfo :=
  let areas := areasOf triangle point pipeline.winding_order
  if fragment_should_keep areas pipeline.cull_back then
    let area_sum := areas 0 + areas 1 + areas 2
    let flat_weights : Fin 3 → ℚ := fun i => areas i / area_sum
    let inverse_depths : Fin 3 → ℚ := fun i => 1 / (triangle i).z
    let inverse_depth :=
      flat_weights 0 * inverse_depths 0 + flat_weights 1 * inverse_depths 1 +
        flat_weights 2 * inverse_depths 2
    some { depth := 1 / inverse_depth,
           weights := fun i => flat_weights i * inverse_depths i / inverse_depth }
  else
    none

/-- `depth_test`: returns `false` if the fragment should be discarded.  The
row read `depth[x]` is modelled by `getD x 0`; rasterizer call sites keep
`x` within the row (scissors are clamped to the framebuffer size). -/
def depth_test (x : Nat) (current_depth : ℚ) (scanline : MutableScanline) : Bool :=
  match scanline.depth with
  | some depth =>
    let closest_depth := depth.getD x 0
    decide (current_depth ≤ closest_depth)
  | none => true

/-- `struct FaceContext`. -/
structure FaceContext (U W : Type) where
  instance_id : Nat
  call : IndexedRenderCall U W
  vertex_output : Fin 3 → VertexOutput W
  fb_width : Nat
  fb_height : Nat

/-- `should_discard_fragment`. -/
def should_discard_fragment (x : Nat) (depth_mode : DepthMode)
    (current_depth : ℚ) (scanline : MutableScanline) : Bool :=
  if current_depth < 0 then true
  else depth_mode.should_test && !depth_test x current_depth scanline

/-- `render_fragment`: run the fragment stage, merge into every color row
(via `blend_colors` when the pipeline has blending, positionally matching
blend attachment `i` with color row `i`), and write depth when the mode
writes and a depth row exists.  Row reads/writes at `x` are modelled with
`getD`/`List.set`; call sites keep `x` within the row. -/
def render_fragment {U W : Type} (x : Nat) (context : FaceContext U W)
    (scanline : MutableScanline) (point : Vec2) (frag : FragmentInfo) :
    MutableScanline :=
  let color := context.call.pipeline.shader.fragmentStage
    { instance_id := context.instance_id,
      position := ⟨point.x, point.y, frag.depth⟩,
      data := context.call.data,
      working := context.call.pipeline.shader.blendWorking
        [(context.vertex_output 0).data, (context.vertex_output 1).data,
          (context.vertex_output 2).data]
        [frag.weights 0, frag.weights 1, frag.weights 2] }
  { y := scanline.y,
    color := (scanline.color.enum).map (fun rowi =>
      let row := rowi.2
      row.set x
        (match context.call.pipeline.blending with
         | some blending =>
           (blending.getD rowi.1 ⟨none, none⟩).blend_colors color (row.getD x 0)
         | none => color)),
    depth :=
      if context.call.pipeline.depth.should_write then
        scanline.depth.map (fun depth_row => depth_row.set x frag.depth)
      else
        scanline.depth }

/-- `process_pixel`. -/
def process_pixel {U W : Type} (x : Nat) (context : FaceContext U W)
    (scanline : MutableScanline) : MutableScanline :=
  let point : Vec2 :=
    ⟨(((x : ℚ) + 1/2) / (context.fb_width : ℚ)) * 2 - 1,
     (((scanline.y : ℚ) + 1/2) / (context.fb_height : ℚ)) * 2 - 1⟩
  let vertex_positions : Fin 3 → Point3 := fun i => (context.vertex_output i).position
  match process_fragment_geometry vertex_positions point context.call.pipeline with
  | some frag =>
    if should_discard_fragment x context.call.pipeline.depth frag.depth scanline then
      scanline
    else
      render_fragment x context scanline point frag
  | none => scanline

/-- Write one processed scanline back into the framebuffer: row `sl.y` of
color attachment `i` becomes `sl.color[i]`, and likewise for depth.  (In
the Rust code the scanline holds `&mut` slices into the attachment
storage, so the writes performed by `process_pixel` land here directly;
scanlines of one face cover pairwise distinct rows, so folding the
write-backs sequentially agrees with the parallel dispatch.) -/
def write_scanline (fb : Framebuffer) (sl : MutableScanline) : Framebuffer :=
  { fb with
    color := (fb.color.zip sl.color).map (fun p =>
      let att := p.1
      (att.take (sl.y * fb.width)) ++ p.2 ++ (att.drop (sl.y * fb.width + fb.width))),
    depth :=
      match fb.depth, sl.depth with
      | some att, some row =>
        some ((att.take (sl.y * fb.width)) ++ row ++ (att.drop (sl.y * fb.width + fb.width)))
      | d, _ => d }

/-- `Rasterizer::render_face` without the `self.stats` write: returns
`none` when `Framebuffer::scanlines` panics, and otherwise the updated
framebuffer together with whether the face was rendered (the
`faces_rendered += 1` of the source fires exactly when the final scissor
is present). -/
def render_face {U W : Type} (instance_id face_index : Nat)
    (call : IndexedRenderCall U W) (framebuffer : Framebuffer) :
    Option (Framebuffer × Bool) :=
  let index_offset := face_index * VERTICES_PER_FACE
  let vertex_output : Fin 3 → VertexOutput W := fun i =>
    call.pipeline.shader.vertexStage
      { vertex_id := call.indices.getD (index_offset + (i : Nat)) 0,
        instance_id := instance_id,
        data := call.data }
  let uv : List Vec2 := (List.finRange 3).map (fun i =>
    let p := (vertex_output i).position
    ⟨(p.x + 1) / 2, (p.y + 1) / 2⟩)
  let generated_scissor := gen_scissor uv framebuffer.width framebuffer.height
  let final_scissor :=
    match call.scissor with
    | some user_scissor => generated_scissor.intersect_with user_scissor
    | none => some generated_scissor
  match final_scissor with
  | none => some (framebuffer, false)
  | some scissor =>
    let fc : FaceContext U W :=
      { instance_id := instance_id, call := call, vertex_output := vertex_output,
        fb_width := framebuffer.width, fb_height := framebuffer.height }
    match framebuffer.scanlines scissor.y scissor.height with
    | PanicOr.panicked _ => none
    | PanicOr.ok scanlines =>
      let processed := scanlines.map (fun scanline =>
        (List.range scissor.width).foldl
          (fun sl delta_x => process_pixel (scissor.x + delta_x) fc sl) scanline)
      some (processed.foldl write_scanline framebuffer, true)

/-- `struct RenderStats`. -/
structure RenderStats where
  faces_processed : Nat
  faces_rendered : Nat
  instances : Nat
  calls : Nat
deriving DecidableEq

/-- `RenderStats::default()`: all counters zero. -/
def RenderStats.zero : RenderStats :=
  { faces_processed := 0, faces_rendered := 0, instances := 0, calls := 0 }

/-- `struct Rasterizer`.  The `LinkedList<Arc<Mutex<Framebuffer>>>` stack
is modelled as a list of framebuffers; the code pushes/pops/reads at the
BACK, so the top of the stack is the last list element. -/
structure Rasterizer where
  stats : RenderStats
  render_targets : List Framebuffer
deriving DecidableEq

/-- `Rasterizer::new`. -/
def Rasterizer.new : Rasterizer :=
  { stats := RenderStats.zero, render_targets := [] }

/-- `Rasterizer::new_frame`: effect on the receiver is returned as the
second component (error paths return the receiver unchanged). -/
def Rasterizer.new_frame (self : Rasterizer) :
    Except RasterizerError Unit × Rasterizer :=
  if !self.render_targets.isEmpty then
    (Except.error RasterizerError.RenderTargetUnfinished, self)
  else
    (Except.ok (), { self with stats := RenderStats.zero })

/-- `Rasterizer::push_render_target` (`push_back`). -/
def Rasterizer.push_render_target (self : Rasterizer) (target : Framebuffer) :
    Rasterizer :=
  { self with render_targets := self.render_targets ++ [target] }

/-- `Rasterizer::pop_render_target` (`pop_back`). -/
def Rasterizer.pop_render_target (self : Rasterizer) :
    Except RasterizerError Unit × Rasterizer :=
  match self.render_targets.getLast? with
  | some _ => (Except.ok (), { self with render_targets := self.render_targets.dropLast })
  | none => (Except.error RasterizerError.NoRenderTarget, self)

/-- `Rasterizer::current_render_target` (`back` + clone): never mutates. -/
def Rasterizer.current_render_target (self : Rasterizer) :
    Except RasterizerError Framebuffer × Rasterizer :=
  match self.render_targets.getLast? with
  | some top => (Except.ok top, self)
  | none => (Except.error RasterizerError.NoRenderTarget, self)

/-- Outcome of `Rasterizer::render_indexed`: normal return, error return,
or a `panic!` escaping from `Framebuffer::scanlines`. -/
inductive CallResult (α : Type) where
  | ok (value : α)
  | err (e : RasterizerError)
  | panicked (msg : String)
deriving DecidableEq

/-- The inner face loop of `render_indexed` for one instance: iterate
`face_index = j, j+1, …` while `remaining` faces are left, threading the
framebuffer and the stats (`faces_rendered` incremented inside
`render_face`, `faces_processed` incremented after each face). -/
def render_faces_loop {U W : Type} (instance_id : Nat)
    (call : IndexedRenderCall U W) :
    Nat → Nat → Framebuffer → RenderStats → Option (Framebuffer × RenderStats)
  | _, 0, fb, stats => some (fb, stats)
  | j, Nat.succ remaining, fb, stats =>
    match render_face instance_id j call fb with
    | none => none
    | some (fb2, rendered) =>
      render_faces_loop instance_id call (j + 1) remaining fb2
        { stats with
            faces_rendered := stats.faces_rendered + (if rendered then 1 else 0),
            faces_processed := stats.faces_processed + 1 }

/-- The outer instance loop of `render_indexed`: instance ids
`first_instance + i` for `i = 0, …, instance_count - 1`, incrementing
`instances` after each instance. -/
def render_instances_loop {U W : Type} (call : IndexedRenderCall U W) :
    Nat → Nat → Framebuffer → RenderStats → Option (Framebuffer × RenderStats)
  | _, 0, fb, stats => some (fb, stats)
  | i, Nat.succ remaining, fb, stats =>
    match render_faces_loop (call.first_instance + i) call 0
        (call.indices.length / VERTICES_PER_FACE) fb stats with
    | none => none
    | some (fb2, stats2) =>
      render_instances_loop call (i + 1) remaining fb2
        { stats2 with instances := stats2.instances + 1 }

/-- `Rasterizer::render_indexed`.  The top of the render-target stack is
locked and mutated in place for the whole call; the write-back of the
mutated framebuffer into the (shared-handle) stack is modelled by
replacing the last stack element. -/
def Rasterizer.render_indexed {U W : Type} (self : Rasterizer)
    (call : IndexedRenderCall U W) : CallResult Rasterizer :=
  match self.render_targets.getLast? with
  | none => CallResult.err RasterizerError.NoRenderTarget
  | some framebuffer =>
    match render_instances_loop call 0 call.instance_count framebuffer self.stats with
    | none => CallResult.panicked "Invalid scanline range!"
    | some (fb2, stats2) =>
      CallResult.ok
        { stats := { stats2 with calls := stats2.calls + 1 },
          render_targets := self.render_targets.dropLast ++ [fb2] }

/-! ### Spec-side predicates (written from the spec's words, for comparison
with the source-derived definitions) -/

/-- Spec: `front = all(areas[i] ≥ 0)`. -/
def front_facing (triangle : Fin 3 → Point3) (point : Vec2)
    (winding : WindingOrder) : Prop :=
  ∀ i : Fin 3, 0 ≤ areasOf triangle point winding i

/-- Spec: `all(areas[i] ≤ 0)` (the spec's stated back-face acceptance
condition for non-culled geometry). -/
def all_areas_nonpos (triangle : Fin 3 → Point3) (point : Vec2)
    (winding : WindingOrder) : Prop :=
  ∀ i : Fin 3, areasOf triangle point winding i ≤ 0

/-- The condition the source actually tests for the non-culled back face:
all areas strictly negative. -/
def all_areas_neg (triangle : Fin 3 → Point3) (point : Vec2)
    (winding : WindingOrder) : Prop :=
  ∀ i : Fin 3, areasOf triangle point winding i < 0

instance front_facing_dec (t : Fin 3 → Point3) (p : Vec2) (w : WindingOrder) :
    Decidable (front_facing t p w) := by
  unfold front_facing; infer_instance

instance all_areas_nonpos_dec (t : Fin 3 → Point3) (p : Vec2) (w : WindingOrder) :
    Decidable (all_areas_nonpos t p w) := by
  unfold all_areas_nonpos; infer_instance

instance all_areas_neg_dec (t : Fin 3 → Point3) (p : Vec2) (w : WindingOrder) :
    Decidable (all_areas_neg t p w) := by
  unfold all_areas_neg; infer_instance

/-! ### Concrete fixtures used by counterexamples and witnesses -/

/-- A unit shader: every vertex lands at NDC `(0,0)` with depth `1`, every
fragment is the color `5`. -/
def unitShader : Shader Unit Unit :=
  { vertexStage := fun _ => { position := ⟨0, 0, 1⟩, data := () },
    fragmentStage := fun _ => 5,
    blendWorking := fun _ _ => () }

/-- A non-culling pipeline with CCW winding and no depth handling. -/
def pipelineNoCull : Pipeline Unit Unit :=
  { depth := DepthMode.DontCare, cull_back := false,
    winding_order := WindingOrder.CounterClockwise, blending := none,
    shader := unitShader }

/-- The screen-space triangle `(0,0), (1,0), (0,1)` given in back-facing
order for CCW winding, at depth `1`. -/
def triBack : Fin 3 → Point3 := ![⟨0, 0, 1⟩, ⟨1, 0, 1⟩, ⟨0, 1, 1⟩]

/-- A query point on the edge of `triBack`: its three signed areas are
`(-1/4, -1/4, 0)`. -/
def pointOnEdge : Vec2 := ⟨1/2, 0⟩

/-! ### Helper lemmas -/

theorem isSome_ite_bool {α : Type} (b : Bool) (x : α) :
    (if b = true then some x else none).isSome = b := by
  cases b <;> simp

theorem pfg_isSome_eq {U W : Type} (triangle : Fin 3 → Point3) (point : Vec2)
    (pipeline : Pipeline U W) :
    (process_fragment_geometry triangle point pipeline).isSome =
      fragment_should_keep (areasOf triangle point pipeline.winding_order)
        pipeline.cull_back := by
  simp only [process_fragment_geometry]
  rw [isSome_ite_bool]

theorem fragment_should_keep_iff (areas : Fin 3 → ℚ) (cull_back : Bool) :
    fragment_should_keep areas cull_back = true ↔
      ((∀ i : Fin 3, 0 ≤ areas i) ∨
        (cull_back = false ∧ ∀ i : Fin 3, areas i < 0)) := by
  unfold fragment_should_keep
  simp [List.all_eq_true, List.mem_finRange, Bool.or_eq_true, Bool.and_eq_true,
    Bool.not_eq_true', decide_eq_false_iff_not, not_le, ge_iff_le]

/-! ### Claim theorems -/

/-- C1 (counterexample): at the point `(1/2, 0)` on an edge of the
back-facing triangle `triBack`, with `cull_back = false`, the signed areas
are `(-1/4, -1/4, 0)`: the spec's rule `front ∨ all(areas ≤ 0)` accepts
the fragment, but the code rejects it (its back-face test is
`all(areas < 0)`). -/
theorem C1_counterexample :
    (process_fragment_geometry triBack pointOnEdge pipelineNoCull).isSome = false ∧
    pipelineNoCull.cull_back = false ∧
    ¬ front_facing triBack pointOnEdge pipelineNoCull.winding_order ∧
    all_areas_nonpos triBack pointOnEdge pipelineNoCull.winding_order := by
  refine ⟨by with_unfolding_all decide, rfl, by with_unfolding_all decide,
    by with_unfolding_all decide⟩

/-- C1 (amended): a pixel is accepted iff it is front-facing
(`all(areas[i] ≥ 0)`), or `cull_back` is false and all three signed areas
are strictly negative (rather than the spec's `≤ 0`). -/
theorem C1_coverage_rule {U W : Type} (triangle : Fin 3 → Point3)
    (point : Vec2) (pipeline : Pipeline U W) :
    (process_fragment_geometry triangle point pipeline).isSome = true ↔
      (front_facing triangle point pipeline.winding_order ∨
        (pipeline.cull_back = false ∧
          all_areas_neg triangle point pipeline.winding_order)) := by
  rw [pfg_isSome_eq, fragment_should_keep_iff]
  rfl

/-- C2: a covered fragment is discarded iff its depth is negative, or the
depth mode tests (Test or Write) and the stored depth at `x` is strictly
below the fragment depth (`depth ≤ stored` passes); and `render_fragment`
writes the fragment depth into the depth row exactly when the mode is
`Write` and a depth row exists. -/
theorem C2_discard_and_write {U W : Type} (x : Nat) (mode : DepthMode)
    (d : ℚ) (sl : MutableScanline) (context : FaceContext U W) (point : Vec2)
    (frag : FragmentInfo) :
    (should_discard_fragment x mode d sl = true ↔
      (d < 0 ∨ (mode.should_test = true ∧
        ∃ row, sl.depth = some row ∧ row.getD x 0 < d))) ∧
    (render_fragment x context sl point frag).depth =
      (if context.call.pipeline.depth.should_write then
        sl.depth.map (fun depth_row => depth_row.set x frag.depth)
      else sl.depth) := by
  constructor
  · unfold should_discard_fragment depth_test
    by_cases hd : d < 0
    · simp [hd]
    · cases hdep : sl.depth with
      | none => simp [hd, hdep]
      | some row => simp [hd, hdep, not_le]
  · rfl

/-- C6 (counterexample): a degenerate scissor (zero width) intersected
with itself yields `none`, not `some` of itself, refuting unconditional
idempotence. -/
theorem C6_counterexample :
    ¬ (Scissor.intersect_with ⟨0, 0, 0, 3⟩ ⟨0, 0, 0, 3⟩ =
        some ⟨0, 0, 0, 3⟩) := by
  decide

/-- C6 (amended): scissor intersection is commutative for all scissors,
and `A ∩ A = some A` for every scissor with positive width and height
(degenerate scissors self-intersect to `none`). -/
theorem C6_intersect_comm_idem (a b : Scissor) :
    a.intersect_with b = b.intersect_with a ∧
    (0 < a.width → 0 < a.height → a.intersect_with a = some a) := by
  constructor
  · unfold Scissor.intersect_with
    rw [Nat.max_comm, Nat.max_comm a.y, Nat.min_comm, Nat.min_comm (a.y + a.height)]
  · intro hw hh
    unfold Scissor.intersect_with
    have hcond : ¬ (min (a.x + a.width) (a.x + a.width) ≤ max a.x a.x ∨
        min (a.y + a.height) (a.y + a.height) ≤ max a.y a.y) := by
      simp only [Nat.min_self, Nat.max_self]
      omega
    rw [if_neg hcond]
    simp only [Nat.min_self, Nat.max_self, Nat.add_sub_cancel_left]

theorem C6_intersect_comm_idem_witness :
    Scissor.intersect_with ⟨0, 0, 2, 2⟩ ⟨1, 1, 3, 4⟩ =
      Scissor.intersect_with ⟨1, 1, 3, 4⟩ ⟨0, 0, 2, 2⟩ ∧
    Scissor.intersect_with ⟨0, 0, 2, 2⟩ ⟨0, 0, 2, 2⟩ = some ⟨0, 0, 2, 2⟩ :=
  ⟨(C6_intersect_comm_idem ⟨0, 0, 2, 2⟩ ⟨1, 1, 3, 4⟩).1,
   (C6_intersect_comm_idem ⟨0, 0, 2, 2⟩ ⟨1, 1, 3, 4⟩).2 (by decide) (by decide)⟩

/-- The blend op `{ Add, src_factor = One, dst_factor = Zero }`. -/
def identityBlendOp : ComponentBlendOp :=
  { op := BlendOp.Add, src_factor := BlendFactor.One, dst_factor := BlendFactor.Zero }

/-- A blend attachment applying `identityBlendOp` to every channel. -/
def identityAttachment : BlendAttachment :=
  { color := some identityBlendOp, alpha := some identityBlendOp }

/-- A blend attachment with both component ops absent (passthrough). -/
def passthroughAttachment : BlendAttachment :=
  { color := none, alpha := none }

/-- C7: per channel, `{ Add, One, Zero }` computes `1·src + 0·dst = src`,
exactly the passthrough value (here even before the repack quantization),
so the packed outputs of the two paths are identical for all colors. -/
theorem C7_blend_identity (src dst : Nat) :
    (∀ i : Fin 4, identityAttachment.blend_channel src dst i =
      passthroughAttachment.blend_channel src dst i) ∧
    identityAttachment.blend_colors src dst =
      passthroughAttachment.blend_colors src dst := by
  have h : ∀ i : Fin 4, identityAttachment.blend_channel src dst i =
      passthroughAttachment.blend_channel src dst i := by
    intro i
    unfold BlendAttachment.blend_channel identityAttachment passthroughAttachment
    simp only [ite_self]
    simp [ComponentBlendOp.blend, ComponentBlendOp.channel_term, identityBlendOp]
  exact ⟨h, congrArg channels_to_color (funext h)⟩

/-- C10: without a depth attachment `depth_test` always passes, so under
any depth mode a covered fragment is discarded iff its depth is
negative. -/
theorem C10_no_depth_attachment (x : Nat) (mode : DepthMode) (d : ℚ)
    (sl : MutableScanline) (h : sl.depth = none) :
    depth_test x d sl = true ∧
      (should_discard_fragment x mode d sl = true ↔ d < 0) := by
  have ht : depth_test x d sl = true := by
    unfold depth_test
    rw [h]
  refine ⟨ht, ?_⟩
  unfold should_discard_fragment
  rw [ht]
  by_cases hd : d < 0 <;> simp [hd]

theorem C10_no_depth_attachment_witness :
    depth_test 0 1 ⟨0, [[0]], none⟩ = true ∧
      (should_discard_fragment 0 DepthMode.Test 1 ⟨0, [[0]], none⟩ = true ↔
        (1 : ℚ) < 0) :=
  C10_no_depth_attachment 0 DepthMode.Test 1 ⟨0, [[0]], none⟩ rfl

/-- A small concrete framebuffer: 2×2, one color attachment, no depth. -/
def fbSmall : Framebuffer := ⟨2, 2, [[0, 0, 0, 0]], none⟩

/-- C3 (counterexample): on an out-of-range request `scanlines` panics
(the Rust source is `panic!("Invalid scanline range!")`); it does not
return an `InvalidScanlineRange` error variant — the crate's error type
`RasterizerError` has no such variant. -/
theorem C3_counterexample :
    fbSmall.scanlines 5 1 = PanicOr.panicked "Invalid scanline range!" ∧
    ∀ e : RasterizerError,
      e = RasterizerError.NoRenderTarget ∨
      e = RasterizerError.RenderTargetUnfinished := by
  refine ⟨rfl, fun e => ?_⟩
  cases e
  · exact Or.inl rfl
  · exact Or.inr rfl

/-- C3 (amended): `scanlines(offset, count)` panics with message
"Invalid scanline range!" iff `offset ≥ H ∨ offset + count > H` (and, being
a pure read that builds row views, mutates no framebuffer memory);
otherwise it returns exactly `count` scanlines whose `y` fields are
`offset, offset + 1, …, offset + count - 1`. -/
theorem C3_scanlines_range (fb : Framebuffer) (offset count : Nat) :
    (fb.scanlines offset count = PanicOr.panicked "Invalid scanline range!" ↔
      (offset ≥ fb.height ∨ offset + count > fb.height)) ∧
    (∀ sls, fb.scanlines offset count = PanicOr.ok sls →
      sls.length = count ∧ ∀ i, i < count → (sls.getD i default).y = offset + i) := by
  unfold Framebuffer.scanlines
  split
  next h =>
    refine ⟨⟨fun _ => h, fun _ => rfl⟩, fun sls hs => ?_⟩
    exact absurd hs (by simp)
  next h =>
    refine ⟨⟨fun hc => absurd hc (by simp), fun hc => absurd hc h⟩, fun sls hs => ?_⟩
    have hsls : sls = (List.range count).map _ := (PanicOr.ok.injEq _ _ ▸ hs).symm
    subst hsls
    refine ⟨by simp, fun i hi => ?_⟩
    rw [List.getD_eq_getElem?_getD]
    simp [List.getElem?_map, List.getElem?_range hi]

theorem C3_scanlines_range_witness :
    (([⟨0, [[0, 0]], none⟩, ⟨1, [[0, 0]], none⟩] : List MutableScanline).length = 2 ∧
      ∀ i, i < 2 →
        (([⟨0, [[0, 0]], none⟩, ⟨1, [[0, 0]], none⟩] : List MutableScanline).getD i
            default).y = 0 + i) ∧
    (fbSmall.scanlines 5 1 = PanicOr.panicked "Invalid scanline range!") :=
  ⟨(C3_scanlines_range fbSmall 0 2).2 _ rfl,
   (C3_scanlines_range fbSmall 5 1).1.mpr (by decide)⟩

/-- C4: `new_frame` fails with `RenderTargetUnfinished` iff the stack is
non-empty (resetting the stats to zero otherwise); `pop_render_target`
and `current_render_target` fail with `NoRenderTarget` iff the stack is
empty; and every failing call leaves the rasterizer (stack and stats)
unchanged. -/
theorem C4_stack_discipline (r : Rasterizer) :
    (r.new_frame.1 = Except.error RasterizerError.RenderTargetUnfinished ↔
      r.render_targets ≠ []) ∧
    (r.render_targets = [] →
      r.new_frame = (Except.ok (), { r with stats := RenderStats.zero })) ∧
    (r.pop_render_target.1 = Except.error RasterizerError.NoRenderTarget ↔
      r.render_targets = []) ∧
    (r.current_render_target.1 = Except.error RasterizerError.NoRenderTarget ↔
      r.render_targets = []) ∧
    (r.render_targets ≠ [] → r.new_frame.2 = r) ∧
    (r.render_targets = [] → r.pop_render_target.2 = r) ∧
    r.current_render_target.2 = r := by
  rcases List.eq_nil_or_concat r.render_targets with h | ⟨l, a, h⟩ <;>
    unfold Rasterizer.new_frame Rasterizer.pop_render_target
      Rasterizer.current_render_target <;>
    rw [h] <;>
    simp [h, List.getLast?_concat]

theorem C4_stack_discipline_witness :
    (Rasterizer.new.new_frame =
      (Except.ok (), { Rasterizer.new with stats := RenderStats.zero })) ∧
    ((Rasterizer.new.push_render_target fbSmall).new_frame.2 =
      Rasterizer.new.push_render_target fbSmall) ∧
    Rasterizer.new.pop_render_target.2 = Rasterizer.new :=
  ⟨(C4_stack_discipline Rasterizer.new).2.1 rfl,
   (C4_stack_discipline (Rasterizer.new.push_render_target fbSmall)).2.2.2.2.1
     (by simp [Rasterizer.new, Rasterizer.push_render_target]),
   (C4_stack_discipline Rasterizer.new).2.2.2.2.2.1 rfl⟩

/-! ### C9: gen_scissor stays inside the framebuffer -/

theorem scissor_point_step_le (W H : Nat) (b : ScissorBounds) (p : Vec2)
    (hx : b.x1 ≤ W) (hy : b.y1 ≤ H) :
    (scissor_point_step W H b p).x1 ≤ W ∧ (scissor_point_step W H b p).y1 ≤ H := by
  have hclamp : ∀ q : ℚ, clamp01 q ≤ 1 := fun q =>
    max_le (by norm_num) (min_le_right _ _)
  have hceil : ∀ (q : ℚ) (n : Nat), clamp01 q ≤ 1 →
      (Int.ceil (clamp01 q * (n : ℚ))).toNat ≤ n := by
    intro q n hq
    rw [Int.toNat_le]
    rw [Int.ceil_le]
    push_cast
    calc clamp01 q * (n : ℚ) ≤ 1 * (n : ℚ) :=
          mul_le_mul_of_nonneg_right hq (Nat.cast_nonneg n)
      _ = (n : ℚ) := one_mul _
  exact ⟨Nat.max_le.mpr ⟨hceil p.x W (hclamp _), hx⟩,
    Nat.max_le.mpr ⟨hceil p.y H (hclamp _), hy⟩⟩

theorem scissor_point_step_order (W H : Nat) (b : ScissorBounds) (p : Vec2) :
    (scissor_point_step W H b p).x0 ≤ (scissor_point_step W H b p).x1 ∧
    (scissor_point_step W H b p).y0 ≤ (scissor_point_step W H b p).y1 := by
  have hfc : ∀ q : ℚ, (Int.floor q).toNat ≤ (Int.ceil q).toNat :=
    fun q => Int.toNat_le_toNat (Int.floor_le_ceil q)
  constructor
  · exact le_trans (Nat.min_le_left _ _) (le_trans (hfc _) (Nat.le_max_left _ _))
  · exact le_trans (Nat.min_le_left _ _) (le_trans (hfc _) (Nat.le_max_left _ _))

theorem gen_scissor_fold_le (W H : Nat) (uv : List Vec2) (b : ScissorBounds)
    (hx : b.x1 ≤ W) (hy : b.y1 ≤ H) :
    (uv.foldl (scissor_point_step W H) b).x1 ≤ W ∧
    (uv.foldl (scissor_point_step W H) b).y1 ≤ H := by
  induction uv generalizing b with
  | nil => exact ⟨hx, hy⟩
  | cons p rest ih =>
    have hstep := scissor_point_step_le W H b p hx hy
    exact ih _ hstep.1 hstep.2

theorem gen_scissor_fold_order (W H : Nat) (uv : List Vec2) (b : ScissorBounds)
    (h : uv ≠ []) :
    (uv.foldl (scissor_point_step W H) b).x0 ≤
      (uv.foldl (scissor_point_step W H) b).x1 ∧
    (uv.foldl (scissor_point_step W H) b).y0 ≤
      (uv.foldl (scissor_point_step W H) b).y1 := by
  induction uv generalizing b with
  | nil => exact absurd rfl h
  | cons p rest ih =>
    cases hrest : rest with
    | nil => simpa [hrest] using scissor_point_step_order W H b p
    | cons q rest2 =>
      have := ih (b := scissor_point_step W H b p) (by simp [hrest])
      simpa [hrest] using this

/-- C9: for non-empty input, the generated scissor satisfies
`x + width ≤ W` and `y + height ≤ H`, and its running min corner never
exceeds its max corner, so the two `usize` subtractions in `gen_scissor`
cannot underflow. -/
theorem C9_gen_scissor_bounds (uv : List Vec2) (W H : Nat) (h : uv ≠ []) :
    (gen_scissor uv W H).x + (gen_scissor uv W H).width ≤ W ∧
    (gen_scissor uv W H).y + (gen_scissor uv W H).height ≤ H ∧
    (gen_scissor_bounds uv W H).x0 ≤ (gen_scissor_bounds uv W H).x1 ∧
    (gen_scissor_bounds uv W H).y0 ≤ (gen_scissor_bounds uv W H).y1 := by
  have hle := gen_scissor_fold_le W H uv ⟨W, H, 0, 0⟩ (Nat.zero_le _) (Nat.zero_le _)
  have horder := gen_scissor_fold_order W H uv ⟨W, H, 0, 0⟩ h
  unfold gen_scissor gen_scissor_bounds at *
  refine ⟨?_, ?_, horder.1, horder.2⟩
  · rw [Nat.add_sub_cancel' horder.1]
    exact hle.1
  · rw [Nat.add_sub_cancel' horder.2]
    exact hle.2

theorem C9_gen_scissor_bounds_witness :
    (gen_scissor [⟨1/2, 1/2⟩] 4 4).x + (gen_scissor [⟨1/2, 1/2⟩] 4 4).width ≤ 4 ∧
    (gen_scissor [⟨1/2, 1/2⟩] 4 4).y + (gen_scissor [⟨1/2, 1/2⟩] 4 4).height ≤ 4 ∧
    (gen_scissor_bounds [⟨1/2, 1/2⟩] 4 4).x0 ≤ (gen_scissor_bounds [⟨1/2, 1/2⟩] 4 4).x1 ∧
    (gen_scissor_bounds [⟨1/2, 1/2⟩] 4 4).y0 ≤ (gen_scissor_bounds [⟨1/2, 1/2⟩] 4 4).y1 :=
  C9_gen_scissor_bounds [⟨1/2, 1/2⟩] 4 4 (List.cons_ne_nil _ _)

/-! ### C5: stats accounting of render_indexed -/

theorem render_faces_loop_stats {U W : Type} (instance_id : Nat)
    (call : IndexedRenderCall U W) :
    ∀ (n j : Nat) (fb : Framebuffer) (st : RenderStats) (fb2 : Framebuffer)
      (st2 : RenderStats),
      render_faces_loop instance_id call j n fb st = some (fb2, st2) →
      st2.calls = st.calls ∧ st2.instances = st.instances ∧
      st2.faces_processed = st.faces_processed + n ∧
      st.faces_rendered ≤ st2.faces_rendered ∧
      st2.faces_rendered ≤ st.faces_rendered + n := by
  intro n
  induction n with
  | zero =>
    intro j fb st fb2 st2 h
    unfold render_faces_loop at h
    obtain ⟨rfl, rfl⟩ : fb = fb2 ∧ st = st2 := by
      have := Option.some.inj h
      exact ⟨congrArg Prod.fst this, congrArg Prod.snd this⟩
    omega
  | succ n ih =>
    intro j fb st fb2 st2 h
    unfold render_faces_loop at h
    cases hf : render_face instance_id j call fb with
    | none => rw [hf] at h; exact absurd h (by simp)
    | some p =>
      rw [hf] at h
      obtain ⟨h1, h2, h3, h4, h5⟩ := ih (j + 1) p.1 _ fb2 st2 h
      simp only at h1 h2 h3 h4 h5
      have hite : (if p.2 then 1 else 0) ≤ 1 := by
        cases p.2 <;> simp
      refine ⟨h1, h2, by omega, by omega, by omega⟩

theorem render_instances_loop_stats {U W : Type} (call : IndexedRenderCall U W) :
    ∀ (k i : Nat) (fb : Framebuffer) (st : RenderStats) (fb2 : Framebuffer)
      (st2 : RenderStats),
      render_instances_loop call i k fb st = some (fb2, st2) →
      st2.calls = st.calls ∧
      st2.instances = st.instances + k ∧
      st2.faces_processed = st.faces_processed +
        k * (call.indices.length / VERTICES_PER_FACE) ∧
      st.faces_rendered ≤ st2.faces_rendered ∧
      st2.faces_rendered ≤ st.faces_rendered +
        k * (call.indices.length / VERTICES_PER_FACE) := by
  intro k
  induction k with
  | zero =>
    intro i fb st fb2 st2 h
    unfold render_instances_loop at h
    obtain ⟨rfl, rfl⟩ : fb = fb2 ∧ st = st2 := by
      have := Option.some.inj h
      exact ⟨congrArg Prod.fst this, congrArg Prod.snd this⟩
    omega
  | succ k ih =>
    intro i fb st fb2 st2 h
    unfold render_instances_loop at h
    cases hf : render_faces_loop (call.first_instance + i) call 0
        (call.indices.length / VERTICES_PER_FACE) fb st with
    | none => rw [hf] at h; exact absurd h (by simp)
    | some p =>
      rw [hf] at h
      obtain ⟨g1, g2, g3, g4, g5⟩ :=
        render_faces_loop_stats (call.first_instance + i) call _ _ _ _ _ _ hf
      obtain ⟨h1, h2, h3, h4, h5⟩ := ih (i + 1) p.1 _ fb2 st2 h
      simp only at h1 h2 h3 h4 h5
      have hmul1 : Nat.succ k * (call.indices.length / VERTICES_PER_FACE) =
          k * (call.indices.length / VERTICES_PER_FACE) +
            (call.indices.length / VERTICES_PER_FACE) := Nat.succ_mul _ _
      have hmul2 : (k + 1) * (call.indices.length / VERTICES_PER_FACE) =
          k * (call.indices.length / VERTICES_PER_FACE) +
            (call.indices.length / VERTICES_PER_FACE) := by
        rw [Nat.add_mul, Nat.one_mul]
      refine ⟨by omega, by omega, by omega, by omega, by omega⟩

/-- C5: every successful `render_indexed` increments `calls` by 1,
`instances` by `instance_count`, and `faces_processed` by
`instance_count * (len(indices) / 3)` (integer division, so trailing
indices are ignored); all four counters are non-decreasing across the
call, and `faces_rendered ≤ faces_processed` is preserved. -/
theorem C5_render_indexed_stats {U W : Type} (r : Rasterizer)
    (call : IndexedRenderCall U W) (r2 : Rasterizer)
    (h : r.render_indexed call = CallResult.ok r2) :
    r2.stats.calls = r.stats.calls + 1 ∧
    r2.stats.instances = r.stats.instances + call.instance_count ∧
    r2.stats.faces_processed = r.stats.faces_processed +
      call.instance_count * (call.indices.length / VERTICES_PER_FACE) ∧
    r.stats.faces_rendered ≤ r2.stats.faces_rendered ∧
    r2.stats.faces_rendered ≤ r.stats.faces_rendered +
      call.instance_count * (call.indices.length / VERTICES_PER_FACE) ∧
    (r.stats.faces_rendered ≤ r.stats.faces_processed →
      r2.stats.faces_rendered ≤ r2.stats.faces_processed) := by
  unfold Rasterizer.render_indexed at h
  cases htop : r.render_targets.getLast? with
  | none =>
    rw [htop] at h
    simp at h
  | some fb =>
    rw [htop] at h
    dsimp only at h
    cases hloop : render_instances_loop call 0 call.instance_count fb r.stats with
    | none =>
      rw [hloop] at h
      simp at h
    | some p =>
      obtain ⟨fb2, st2⟩ := p
      rw [hloop] at h
      dsimp only at h
      obtain ⟨g1, g2, g3, g4, g5⟩ :=
        render_instances_loop_stats call _ _ _ _ _ _ hloop
      have hr2 := (CallResult.ok.inj h).symm
      subst hr2
      dsimp only
      omega

def rasterC5 : Rasterizer := ⟨RenderStats.zero, [⟨1, 1, [[0]], none⟩]⟩

def callC5 : IndexedRenderCall Unit Unit :=
  { pipeline := pipelineNoCull, vertex_offset := 0, first_instance := 0,
    instance_count := 1, scissor := none, indices := [0, 0, 0], data := () }

def rasterC5_out : Rasterizer := ⟨⟨1, 1, 1, 1⟩, [⟨1, 1, [[5]], none⟩]⟩

theorem C5_render_indexed_stats_witness :
    rasterC5_out.stats.calls = rasterC5.stats.calls + 1 ∧
    rasterC5_out.stats.instances = rasterC5.stats.instances + callC5.instance_count ∧
    rasterC5_out.stats.faces_processed = rasterC5.stats.faces_processed +
      callC5.instance_count * (callC5.indices.length / VERTICES_PER_FACE) ∧
    rasterC5.stats.faces_rendered ≤ rasterC5_out.stats.faces_rendered ∧
    rasterC5_out.stats.faces_rendered ≤ rasterC5.stats.faces_rendered +
      callC5.instance_count * (callC5.indices.length / VERTICES_PER_FACE) ∧
    (rasterC5.stats.faces_rendered ≤ rasterC5.stats.faces_processed →
      rasterC5_out.stats.faces_rendered ≤ rasterC5_out.stats.faces_processed) :=
  C5_render_indexed_stats rasterC5 callC5 rasterC5_out (by with_unfolding_all rfl)

/-! ### C8: render_indexed is independent of vertex_offset -/

theorem render_face_vertex_offset {U W : Type} (instance_id face_index : Nat)
    (p : Pipeline U W) (v1 v2 fi ic : Nat) (sc : Option Scissor)
    (idx : List Nat) (d : U) (fb : Framebuffer) :
    render_face instance_id face_index ⟨p, v1, fi, ic, sc, idx, d⟩ fb =
      render_face instance_id face_index ⟨p, v2, fi, ic, sc, idx, d⟩ fb := rfl

theorem render_faces_loop_vertex_offset {U W : Type} (instance_id : Nat)
    (p : Pipeline U W) (v1 v2 fi ic : Nat) (sc : Option Scissor)
    (idx : List Nat) (d : U) :
    ∀ (n j : Nat) (fb : Framebuffer) (st : RenderStats),
      render_faces_loop instance_id ⟨p, v1, fi, ic, sc, idx, d⟩ j n fb st =
        render_faces_loop instance_id ⟨p, v2, fi, ic, sc, idx, d⟩ j n fb st := by
  intro n
  induction n with
  | zero => intro j fb st; rfl
  | succ n ih =>
    intro j fb st
    unfold render_faces_loop
    rw [render_face_vertex_offset instance_id j p v1 v2 fi ic sc idx d fb]
    cases render_face instance_id j ⟨p, v2, fi, ic, sc, idx, d⟩ fb with
    | none => rfl
    | some q => exact ih (j + 1) q.1 _

theorem render_instances_loop_vertex_offset {U W : Type} (p : Pipeline U W)
    (v1 v2 fi ic : Nat) (sc : Option Scissor) (idx : List Nat) (d : U) :
    ∀ (k i : Nat) (fb : Framebuffer) (st : RenderStats),
      render_instances_loop ⟨p, v1, fi, ic, sc, idx, d⟩ i k fb st =
        render_instances_loop ⟨p, v2, fi, ic, sc, idx, d⟩ i k fb st := by
  intro k
  induction k with
  | zero => intro i fb st; rfl
  | succ k ih =>
    intro i fb st
    unfold render_instances_loop
    rw [render_faces_loop_vertex_offset (fi + i) p v1 v2 fi ic sc idx d]
    cases render_faces_loop (fi + i) ⟨p, v2, fi, ic, sc, idx, d⟩ 0
        (idx.length / VERTICES_PER_FACE) fb st with
    | none => rfl
    | some q => exact ih (i + 1) q.1 _

/-- C8: the entire outcome of `render_indexed` — error/panic status,
resulting framebuffer contents on the stack, and stats — is identical for
two calls that differ only in `vertex_offset` (the field is never read by
the render path). -/
theorem C8_vertex_offset_irrelevant {U W : Type} (r : Rasterizer)
    (c : IndexedRenderCall U W) (v1 v2 : Nat) :
    r.render_indexed { c with vertex_offset := v1 } =
      r.render_indexed { c with vertex_offset := v2 } := by
  obtain ⟨p, v, fi, ic, sc, idx, d⟩ := c
  show r.render_indexed ⟨p, v1, fi, ic, sc, idx, d⟩ =
    r.render_indexed ⟨p, v2, fi, ic, sc, idx, d⟩
  unfold Rasterizer.render_indexed
  cases r.render_targets.getLast? with
  | none => rfl
  | some fb =>
    dsimp only
    rw [render_instances_loop_vertex_offset p v1 v2 fi ic sc idx d]

end Rast
